import Mathlib

/-!
Shallow embedding of `src/celery/parsers/celery_log.py`, a Datadog log
parser for celery.  The Python module matches one log line against seven
regular expressions in a fixed order (success, received, sending, writing,
starting, schedule_changed, catch-all error) and, on the first match,
returns a 4-tuple `(metric_name, epoch_seconds_string, 1, attr_dict)`.

The regular expressions only use literals, single-character classes,
counted repetition, greedy `+`/`*`, lazy `*?`, named groups and `$`, so the
Python `re` backtracking semantics for this fragment is embedded directly:
a CPS backtracking matcher in which every repetition ranges over one
character class (hence recursion is structural on the input list).
-/

set_option maxRecDepth 4096

namespace CeleryLog

/-- The single-character classes occurring in the source regexes.
`dot` is `.` (anything but a newline, Python default without DOTALL),
`digit` is `\d`, `word` is `\w` (ASCII, Python 2 bytes semantics),
`wordDot` is `[\w\.]`, `wordDash` is `[\w\-]`, `wordDashDot` is `[\w\-\.]`,
`notSpace` is `\S`. -/
inductive CharCls where
  | dot
  | digit
  | word
  | wordDot
  | wordDash
  | wordDashDot
  | notSpace
deriving DecidableEq

def evalCls : CharCls → Char → Bool
  | .dot, c => !(c = '\n')
  | .digit, c => c.isDigit
  | .word, c => c.isAlphanum || c = '_'
  | .wordDot, c => c.isAlphanum || c = '_' || c = '.'
  | .wordDash, c => c.isAlphanum || c = '_' || c = '-'
  | .wordDashDot, c => c.isAlphanum || c = '_' || c = '-' || c = '.'
  | .notSpace, c =>
      !(c = ' ' || c = '\t' || c = '\n' || c = '\r' || c = '\x0b' || c = '\x0c')

/-- The named capture groups appearing in the source regexes. -/
inductive GName where
  | timestamp
  | task
  | task_id
  | task_name
  | duration
  | msg
deriving DecidableEq, Repr

/-- Capture environment: the text captured by each completed named group,
most recently completed group first (mirrors `match.groupdict()`). -/
abbrev Caps := List (GName × List Char)

def capGet : Caps → GName → List Char
  | [], _ => []
  | (g, v) :: rest, g0 => if g = g0 then v else capGet rest g0

def capStr (caps : Caps) (g : GName) : String :=
  String.mk (capGet caps g)

/-- Regular expressions of the fragment used by the source.  All
repetition operators range over a single character class, exactly as in
the seven source regexes. -/
inductive RE where
  | emp
  | lit (c : Char)
  | seq (a b : RE)
  | starG (cl : CharCls)
  | starL (cl : CharCls)
  | plusG (cl : CharCls)
  | reps (cl : CharCls) (n : Nat)
  | grp (g : GName) (r : RE)
  | eol
deriving DecidableEq

/-- Greedy `cls*`: try consuming as many class characters as possible
first, backtracking one character at a time (Python's greedy order). -/
def tryStarG (cl : CharCls) (s : List Char) (k : List Char → Option Caps) :
    Option Caps :=
  match s with
  | [] => k []
  | c :: rest =>
      if evalCls cl c then
        match tryStarG cl rest k with
        | some r => some r
        | none => k (c :: rest)
      else k (c :: rest)

/-- Lazy `cls*?`: try consuming as few class characters as possible first
(Python's lazy order): the continuation is tried before each consumption
step (on empty input trying it is all the star can do). -/
def tryStarL (cl : CharCls) (s : List Char) (k : List Char → Option Caps) :
    Option Caps :=
  match s with
  | [] => k []
  | c :: rest =>
      match k (c :: rest) with
      | some r => some r
      | none => if evalCls cl c then tryStarL cl rest k else none

/-- Greedy `cls+`: one mandatory class character, then greedy star. -/
def tryPlusG (cl : CharCls) (s : List Char) (k : List Char → Option Caps) :
    Option Caps :=
  match s with
  | [] => none
  | c :: rest => if evalCls cl c then tryStarG cl rest k else none

/-- Exactly `n` class characters (counted repetition `cls{n}`). -/
def tryReps (cl : CharCls) : Nat → List Char → (List Char → Option Caps) →
    Option Caps
  | 0, s, k => k s
  | n + 1, s, k =>
      match s with
      | [] => none
      | c :: rest => if evalCls cl c then tryReps cl n rest k else none

/-- CPS backtracking matcher.  `mmatch r s caps k` tries every way for `r`
to consume a prefix of `s`, in Python's backtracking order, calling the
continuation `k` with the remaining input and the captures; the first
alternative on which `k` succeeds wins.  A group records the slice of
input it consumed.  `eol` is Python `$`: end of input or a sole trailing
newline. -/
def mmatch : RE → List Char → Caps → (List Char → Caps → Option Caps) →
    Option Caps
  | .emp, s, caps, k => k s caps
  | .lit c, s, caps, k =>
      match s with
      | [] => none
      | c0 :: rest => if c0 = c then k rest caps else none
  | .seq a b, s, caps, k =>
      mmatch a s caps (fun s1 caps1 => mmatch b s1 caps1 k)
  | .starG cl, s, caps, k => tryStarG cl s (fun s1 => k s1 caps)
  | .starL cl, s, caps, k => tryStarL cl s (fun s1 => k s1 caps)
  | .plusG cl, s, caps, k => tryPlusG cl s (fun s1 => k s1 caps)
  | .reps cl n, s, caps, k => tryReps cl n s (fun s1 => k s1 caps)
  | .grp g r, s, caps, k =>
      mmatch r s caps
        (fun s1 caps1 => k s1 ((g, s.take (s.length - s1.length)) :: caps1))
  | .eol, s, caps, k =>
      if s = [] ∨ s = ['\n'] then k s caps else none

/-- `re.match`: anchor the pattern at the start of the line; a match need
not consume the whole line.  Returns the captures on success. -/
def reMatch (r : RE) (line : String) : Option Caps :=
  mmatch r line.data [] (fun _ caps => some caps)

/-- Concatenation of a list of regexes. -/
def catR (rs : List RE) : RE := rs.foldr RE.seq RE.emp

/-- A literal string. -/
def litStr (s : String) : RE := catR (s.data.map RE.lit)

/-- Body of the named `timestamp` group shared by all seven source
regexes: `\d{4}-\d{2}-\d{2} \d{2}:\d{2}:\d{2}.*?(\d+)`.  The inner
numbered group `(\d+)` is never read by the source (`groupdict()` only
returns named groups), so it is embedded as a plain `\d+`. -/
def tsInner : RE :=
  catR [RE.reps .digit 4, RE.lit '-', RE.reps .digit 2, RE.lit '-',
    RE.reps .digit 2, RE.lit ' ', RE.reps .digit 2, RE.lit ':',
    RE.reps .digit 2, RE.lit ':', RE.reps .digit 2,
    RE.starL .dot, RE.plusG .digit]

/-- `(?P<timestamp>\d{4}-\d{2}-\d{2} \d{2}:\d{2}:\d{2}.*?(\d+))`. -/
def tsGroup : RE := RE.grp GName.timestamp tsInner

/-- `\[(?P<timestamp>...).*Task (?P<task>[\w\.]+)\[(?P<task_id>[\w\-]+)\]
succeeded in (?P<duration>\d+\.\d+)s: (?P<msg>\S+$)`. -/
def success_regex : RE :=
  catR [RE.lit '[', tsGroup, RE.starG .dot, litStr "Task ",
    RE.grp GName.task (RE.plusG .wordDot), RE.lit '[',
    RE.grp GName.task_id (RE.plusG .wordDash), RE.lit ']',
    litStr " succeeded in ",
    RE.grp GName.duration
      (catR [RE.plusG .digit, RE.lit '.', RE.plusG .digit]),
    litStr "s: ",
    RE.grp GName.msg (RE.seq (RE.plusG .notSpace) RE.eol)]

/-- `\[(?P<timestamp>...).*Received task: (?P<task>[\w\.]+)\[(?P<task_id>[\w\-]+)\]`. -/
def received_regex : RE :=
  catR [RE.lit '[', tsGroup, RE.starG .dot, litStr "Received task: ",
    RE.grp GName.task (RE.plusG .wordDot), RE.lit '[',
    RE.grp GName.task_id (RE.plusG .wordDash), RE.lit ']']

/-- `\[(?P<timestamp>...).*Scheduler: Sending due task (?P<task_name>[\w\-\.]+) \((?P<task>.*?)\)`. -/
def sending_regex : RE :=
  catR [RE.lit '[', tsGroup, RE.starG .dot,
    litStr "Scheduler: Sending due task ",
    RE.grp GName.task_name (RE.plusG .wordDashDot), RE.lit ' ', RE.lit '(',
    RE.grp GName.task (RE.starL .dot), RE.lit ')']

/-- `\[(?P<timestamp>...).*Writing entries\.\.\.`. -/
def writing_regex : RE :=
  catR [RE.lit '[', tsGroup, RE.starG .dot, litStr "Writing entries..."]

/-- `\[(?P<timestamp>...).*beat: Starting\.\.\.`. -/
def starting_regex : RE :=
  catR [RE.lit '[', tsGroup, RE.starG .dot, litStr "beat: Starting..."]

/-- `\[(?P<timestamp>...).*DatabaseScheduler: Schedule changed\.`. -/
def schedule_changed_regex : RE :=
  catR [RE.lit '[', tsGroup, RE.starG .dot,
    litStr "DatabaseScheduler: Schedule changed."]

/-- `\[(?P<timestamp>...).*` — the catch-all. -/
def error_regex : RE :=
  catR [RE.lit '[', tsGroup, RE.starG .dot]

/-- The fixed attribute mapping of every event (`attr_dict` in the
source). -/
def attr_dict : List (String × String) :=
  [("metric_type", "counter"), ("unit", "request")]

/-- The 4-tuple returned to Datadog. -/
abbrev Event := String × String × Nat × List (String × String)

def digitVal (c : Char) : Nat := c.toNat - '0'.toNat

/-- Numeric fields of a parsed timestamp text:
year, month, day, hour, minute, second. -/
def readStamp (l : List Char) : Option (Nat × Nat × Nat × Nat × Nat × Nat) :=
  match l with
  | y1 :: y2 :: y3 :: y4 :: '-' :: m1 :: m2 :: '-' :: d1 :: d2 :: ' ' ::
    h1 :: h2 :: ':' :: i1 :: i2 :: ':' :: s1 :: s2 :: rest =>
      if (y1.isDigit && y2.isDigit && y3.isDigit && y4.isDigit &&
          m1.isDigit && m2.isDigit && d1.isDigit && d2.isDigit &&
          h1.isDigit && h2.isDigit && i1.isDigit && i2.isDigit &&
          s1.isDigit && s2.isDigit) then
        match rest with
        | [] =>
            some (digitVal y1 * 1000 + digitVal y2 * 100 + digitVal y3 * 10 +
                digitVal y4,
              digitVal m1 * 10 + digitVal m2, digitVal d1 * 10 + digitVal d2,
              digitVal h1 * 10 + digitVal h2, digitVal i1 * 10 + digitVal i2,
              digitVal s1 * 10 + digitVal s2)
        | ',' :: f =>
            if f ≠ [] && f.all Char.isDigit then
              some (digitVal y1 * 1000 + digitVal y2 * 100 +
                  digitVal y3 * 10 + digitVal y4,
                digitVal m1 * 10 + digitVal m2, digitVal d1 * 10 + digitVal d2,
                digitVal h1 * 10 + digitVal h2, digitVal i1 * 10 + digitVal i2,
                digitVal s1 * 10 + digitVal s2)
            else none
        | _ => none
      else none
  | _ => none

def isLeapYear (y : Nat) : Bool :=
  (y % 4 = 0 && y % 100 ≠ 0) || y % 400 = 0

def daysInMonth (y m : Nat) : Nat :=
  if m = 2 then (if isLeapYear y then 29 else 28)
  else if m = 4 || m = 6 || m = 9 || m = 11 then 30
  else 31

/-- Days between 1970-01-01 and the civil date `y-m-d` (the standard
civil-from-days inverse; all intermediate quotients are of non-negative
values for the 4-digit years the regexes admit). -/
def daysFromCivil (y m d : Nat) : Int :=
  let yi : Int := if m ≤ 2 then (y : Int) - 1 else (y : Int)
  let era : Int := yi / 400
  let yoe : Int := yi - era * 400
  let mp : Int := if m > 2 then (m : Int) - 3 else (m : Int) + 9
  let doy : Int := (153 * mp + 2) / 5 + (d : Int) - 1
  let doe : Int := yoe * 365 + yoe / 4 - yoe / 100 + doy
  era * 146097 + doe - 719468

/-- Modelled from the spec: the repository calls `common.parse_date` (the
Datadog dogstream date helper, not part of this repository's sources) on
the captured timestamp text.  Per the spec, it parses text of the form
`YYYY-MM-DD HH:MM:SS` optionally followed by `,` and fractional-second
digits, interprets it in the local time zone, and renders the integer
seconds since the epoch as a decimal string; unparseable text is a
reportable failure.  The ambient time zone is made explicit as `tz`, the
local offset from UTC in seconds (east positive) in effect for the given
timestamp, as the spec's design notes direct. -/
def parse_date (tz : Int) (s : String) : Except String String :=
  match readStamp s.data with
  | none => Except.error s
  | some (y, mo, d, h, mi, sec) =>
      if 1 ≤ mo && mo ≤ 12 && 1 ≤ d && d ≤ daysInMonth y mo &&
          h ≤ 23 && mi ≤ 59 && sec ≤ 59 then
        Except.ok (toString
          (daysFromCivil y mo d * 86400 +
            ((h : Int) * 3600 + (mi : Int) * 60 + (sec : Int)) - tz))
      else Except.error s

/-- `parse_celery(logging, line)` from the source: try the seven regexes
in order; on the first match return the 4-tuple, converting the captured
timestamp with `common.parse_date`; with no match fall off the end
(`None`, embedded as `Except.ok none`).  A date-parsing failure
propagates to the caller (`Except.error`).  The unused `logging` argument
is kept with an arbitrary type; `tz` is the ambient time-zone offset
used by `parse_date`. -/
def parse_celery {α : Type} (tz : Int) (logging : α) (line : String) :
    Except String (Option Event) :=
  match reMatch success_regex line with
  | some caps =>
      match parse_date tz (capStr caps GName.timestamp) with
      | Except.ok ts =>
          Except.ok (some ("celery.success." ++ capStr caps GName.task,
            ts, 1, attr_dict))
      | Except.error e => Except.error e
  | none =>
  match reMatch received_regex line with
  | some caps =>
      match parse_date tz (capStr caps GName.timestamp) with
      | Except.ok ts =>
          Except.ok (some ("celery.received." ++ capStr caps GName.task,
            ts, 1, attr_dict))
      | Except.error e => Except.error e
  | none =>
  match reMatch sending_regex line with
  | some caps =>
      match parse_date tz (capStr caps GName.timestamp) with
      | Except.ok ts =>
          Except.ok (some ("celery.sending." ++ capStr caps GName.task,
            ts, 1, attr_dict))
      | Except.error e => Except.error e
  | none =>
  match reMatch writing_regex line with
  | some caps =>
      match parse_date tz (capStr caps GName.timestamp) with
      | Except.ok ts => Except.ok (some ("celery.writing", ts, 1, attr_dict))
      | Except.error e => Except.error e
  | none =>
  match reMatch starting_regex line with
  | some caps =>
      match parse_date tz (capStr caps GName.timestamp) with
      | Except.ok ts => Except.ok (some ("celery.starting", ts, 1, attr_dict))
      | Except.error e => Except.error e
  | none =>
  match reMatch schedule_changed_regex line with
  | some caps =>
      match parse_date tz (capStr caps GName.timestamp) with
      | Except.ok ts =>
          Except.ok (some ("celery.schedule_changed", ts, 1, attr_dict))
      | Except.error e => Except.error e
  | none =>
  match reMatch error_regex line with
  | some caps =>
      match parse_date tz (capStr caps GName.timestamp) with
      | Except.ok ts => Except.ok (some ("celery.error", ts, 1, attr_dict))
      | Except.error e => Except.error e
  | none => Except.ok none

/-- No character of `l` is a decimal digit. -/
def noDigit (l : List Char) : Bool := l.all (fun c => !c.isDigit)

/-- The six specific rules, in the order the source tries them (the
catch-all error rule comes after all of them). -/
def specRules : List RE :=
  [success_regex, received_regex, sending_regex, writing_regex,
   starting_regex, schedule_changed_regex]

/-- The metric name the `i`-th specific rule builds from its captures:
the first three append the captured dotted task name, the last three are
bare. -/
def specMetricName : Nat → Caps → String
  | 0, caps => "celery.success." ++ capStr caps GName.task
  | 1, caps => "celery.received." ++ capStr caps GName.task
  | 2, caps => "celery.sending." ++ capStr caps GName.task
  | 3, _ => "celery.writing"
  | 4, _ => "celery.starting"
  | 5, _ => "celery.schedule_changed"
  | _, _ => ""

theorem catR_cons (r : RE) (rs : List RE) : catR (r :: rs) = RE.seq r (catR rs) :=
  rfl

/-- A continuation that always succeeds makes a greedy star succeed. -/
theorem tryStarG_isSome (cl : CharCls) (s : List Char)
    (k : List Char → Option Caps) (hk : ∀ t, (k t).isSome = true) :
    (tryStarG cl s k).isSome = true := by
  induction s with
  | nil => simpa using hk []
  | cons c rest ih =>
      simp only [tryStarG]
      split
      · obtain ⟨r, hr⟩ := Option.isSome_iff_exists.mp ih
        rw [hr]
        rfl
      · exact hk _

/-- One mandatory class character, then a total continuation: `cls+`
succeeds. -/
theorem tryPlusG_isSome (cl : CharCls) (c : Char) (rest : List Char)
    (k : List Char → Option Caps) (hc : evalCls cl c = true)
    (hk : ∀ t, (k t).isSome = true) :
    (tryPlusG cl (c :: rest) k).isSome = true := by
  simp only [tryPlusG, hc, if_true]
  exact tryStarG_isSome cl rest k hk

/-- Lazy star succeeds as soon as the continuation succeeds here. -/
theorem tryStarL_isSome_now (cl : CharCls) (s : List Char)
    (k : List Char → Option Caps) (h : (k s).isSome = true) :
    (tryStarL cl s k).isSome = true := by
  obtain ⟨r, hr⟩ := Option.isSome_iff_exists.mp h
  cases s with
  | nil => simp [tryStarL, hr]
  | cons c rest =>
      simp only [tryStarL]
      rw [hr]
      rfl

/-- Lazy star may consume one class character and succeed later. -/
theorem tryStarL_isSome_step (cl : CharCls) (c : Char) (rest : List Char)
    (k : List Char → Option Caps) (hc : evalCls cl c = true)
    (h : (tryStarL cl rest k).isSome = true) :
    (tryStarL cl (c :: rest) k).isSome = true := by
  simp only [tryStarL]
  cases hk : k (c :: rest) with
  | some r => rfl
  | none => simpa [hc] using h

/-- If the continuation fails on every suffix, lazy star fails. -/
theorem tryStarL_eq_none (cl : CharCls) (s : List Char)
    (k : List Char → Option Caps) (hk : ∀ t, t <:+ s → k t = none) :
    tryStarL cl s k = none := by
  induction s with
  | nil => simpa [tryStarL] using hk [] (List.suffix_refl [])
  | cons c rest ih =>
      simp only [tryStarL, hk (c :: rest) (List.suffix_refl _)]
      split
      · exact ih (fun t ht => hk t (ht.trans (List.suffix_cons c rest)))
      · rfl

/-- On a digit-free input, `\d+` fails from every suffix. -/
theorem tryPlusG_digit_none (rest t : List Char)
    (k : List Char → Option Caps) (ht : t <:+ rest)
    (hnd : noDigit rest = true) : tryPlusG .digit t k = none := by
  cases t with
  | nil => rfl
  | cons c ts =>
      have hc : c ∈ rest := ht.sublist.subset (List.mem_cons_self c ts)
      have hcd : (!c.isDigit) = true := List.all_eq_true.mp hnd c hc
      have hcd2 : c.isDigit = false := by simpa using hcd
      simp [tryPlusG, evalCls, hcd2]

/-- Stepping the shared timestamp-group body over a well-formed
`YYYY-MM-DD HH:MM:SS` prefix: what remains is the lazy `.*?` hunting a
digit run in `rest`. -/
theorem tsInner_step (c1 c2 c3 c4 c5 c6 c7 c8 c9 c10 c11 c12 c13 c14 : Char)
    (rest : List Char) (caps : Caps) (k : List Char → Caps → Option Caps)
    (h1 : c1.isDigit = true) (h2 : c2.isDigit = true)
    (h3 : c3.isDigit = true) (h4 : c4.isDigit = true)
    (h5 : c5.isDigit = true) (h6 : c6.isDigit = true)
    (h7 : c7.isDigit = true) (h8 : c8.isDigit = true)
    (h9 : c9.isDigit = true) (h10 : c10.isDigit = true)
    (h11 : c11.isDigit = true) (h12 : c12.isDigit = true)
    (h13 : c13.isDigit = true) (h14 : c14.isDigit = true) :
    mmatch tsInner
      (c1 :: c2 :: c3 :: c4 :: '-' :: c5 :: c6 :: '-' :: c7 :: c8 :: ' ' ::
        c9 :: c10 :: ':' :: c11 :: c12 :: ':' :: c13 :: c14 :: rest) caps k
    = tryStarL .dot rest (fun t => tryPlusG .digit t (fun u => k u caps)) := by
  simp [tsInner, catR, mmatch, tryReps, evalCls,
    h1, h2, h3, h4, h5, h6, h7, h8, h9, h10, h11, h12, h13, h14]

/-- A line not starting with `[` fails any regex of the form `\[...`. -/
theorem seq_lit_bracket_none (r : RE) (l : List Char) (caps : Caps)
    (k : List Char → Caps → Option Caps) (h : l.head? ≠ some '[') :
    mmatch (RE.seq (RE.lit '[') r) l caps k = none := by
  cases l with
  | nil => rfl
  | cons c rest =>
      have hc : ¬(c = '[') := fun hc => h (by simp [hc])
      simp [mmatch, hc]

/-- After a well-formed `[YYYY-MM-DD HH:MM:SS` prefix whose remainder has
no digit at all, every rule of the table fails: the mandatory `(\d+)`
inside the timestamp group finds nothing to match. -/
theorem catR_bracket_ts_none (rs : List RE)
    (c1 c2 c3 c4 c5 c6 c7 c8 c9 c10 c11 c12 c13 c14 : Char)
    (rest : List Char) (caps : Caps) (k : List Char → Caps → Option Caps)
    (h1 : c1.isDigit = true) (h2 : c2.isDigit = true)
    (h3 : c3.isDigit = true) (h4 : c4.isDigit = true)
    (h5 : c5.isDigit = true) (h6 : c6.isDigit = true)
    (h7 : c7.isDigit = true) (h8 : c8.isDigit = true)
    (h9 : c9.isDigit = true) (h10 : c10.isDigit = true)
    (h11 : c11.isDigit = true) (h12 : c12.isDigit = true)
    (h13 : c13.isDigit = true) (h14 : c14.isDigit = true)
    (hnd : noDigit rest = true) :
    mmatch (catR (RE.lit '[' :: tsGroup :: rs))
      ('[' :: c1 :: c2 :: c3 :: c4 :: '-' :: c5 :: c6 :: '-' :: c7 :: c8 ::
        ' ' :: c9 :: c10 :: ':' :: c11 :: c12 :: ':' :: c13 :: c14 :: rest)
      caps k = none := by
  simp [catR_cons, tsGroup, tsInner, mmatch, tryReps, evalCls,
    h1, h2, h3, h4, h5, h6, h7, h8, h9, h10, h11, h12, h13, h14]
  exact tryStarL_eq_none _ _ _
    (fun t ht => tryPlusG_digit_none rest t _ ht hnd)

/-- The catch-all pattern matches any line with a leading bracketed
timestamp of the documented shape `[YYYY-MM-DD HH:MM:SS,f...` (the first
fractional-seconds digit supplies the `(\d+)` of the timestamp group). -/
theorem error_regex_matches_stamp (line : String)
    (c1 c2 c3 c4 c5 c6 c7 c8 c9 c10 c11 c12 c13 c14 f : Char)
    (rest : List Char)
    (hline : line.data = '[' :: c1 :: c2 :: c3 :: c4 :: '-' :: c5 :: c6 ::
      '-' :: c7 :: c8 :: ' ' :: c9 :: c10 :: ':' :: c11 :: c12 :: ':' ::
      c13 :: c14 :: ',' :: f :: rest)
    (h1 : c1.isDigit = true) (h2 : c2.isDigit = true)
    (h3 : c3.isDigit = true) (h4 : c4.isDigit = true)
    (h5 : c5.isDigit = true) (h6 : c6.isDigit = true)
    (h7 : c7.isDigit = true) (h8 : c8.isDigit = true)
    (h9 : c9.isDigit = true) (h10 : c10.isDigit = true)
    (h11 : c11.isDigit = true) (h12 : c12.isDigit = true)
    (h13 : c13.isDigit = true) (h14 : c14.isDigit = true)
    (hf : f.isDigit = true) :
    (reMatch error_regex line).isSome = true := by
  simp [reMatch, hline, error_regex, catR_cons, tsGroup, tsInner, mmatch,
    tryReps, evalCls,
    h1, h2, h3, h4, h5, h6, h7, h8, h9, h10, h11, h12, h13, h14]
  apply tryStarL_isSome_step _ _ _ _ (by decide)
  apply tryStarL_isSome_now
  apply tryPlusG_isSome _ _ _ _ (by simp [evalCls, hf])
  intro t
  exact tryStarG_isSome _ _ _ (fun u => rfl)

/-- A metric name with a prefix longer than `"celery.error"` differs from
it. -/
theorem append_ne_error (p T : String) (hp : 12 < p.length) :
    p ++ T ≠ "celery.error" := by
  intro heq
  have hlen := congrArg String.length heq
  rw [String.length_append] at hlen
  have e2 : ("celery.error" : String).length = 12 := rfl
  rw [e2] at hlen
  omega

/-- Inversion: any produced event comes from one of the seven rules, with
the timestamp converted from that rule's captures and the fields built
exactly as in the corresponding source branch. -/
theorem parse_celery_inv {α : Type} (tz : Int) (logging : α) (line : String)
    (ev : Event) (h : parse_celery tz logging line = Except.ok (some ev)) :
    ∃ caps ts, parse_date tz (capStr caps GName.timestamp) = Except.ok ts ∧
      ((reMatch success_regex line = some caps ∧
        ev = ("celery.success." ++ capStr caps GName.task, ts, 1, attr_dict)) ∨
       (reMatch received_regex line = some caps ∧
        ev = ("celery.received." ++ capStr caps GName.task, ts, 1,
          attr_dict)) ∨
       (reMatch sending_regex line = some caps ∧
        ev = ("celery.sending." ++ capStr caps GName.task, ts, 1,
          attr_dict)) ∨
       (reMatch writing_regex line = some caps ∧
        ev = ("celery.writing", ts, 1, attr_dict)) ∨
       (reMatch starting_regex line = some caps ∧
        ev = ("celery.starting", ts, 1, attr_dict)) ∨
       (reMatch schedule_changed_regex line = some caps ∧
        ev = ("celery.schedule_changed", ts, 1, attr_dict)) ∨
       (reMatch error_regex line = some caps ∧
        ev = ("celery.error", ts, 1, attr_dict))) := by
  rcases e1 : reMatch success_regex line with _ | caps
  · rcases e2 : reMatch received_regex line with _ | caps
    · rcases e3 : reMatch sending_regex line with _ | caps
      · rcases e4 : reMatch writing_regex line with _ | caps
        · rcases e5 : reMatch starting_regex line with _ | caps
          · rcases e6 : reMatch schedule_changed_regex line with _ | caps
            · rcases e7 : reMatch error_regex line with _ | caps
              · simp only [parse_celery, e1, e2, e3, e4, e5, e6, e7] at h
                injection h with h1
                exact Option.noConfusion h1
              · rcases ed : parse_date tz (capStr caps GName.timestamp)
                  with e | ts
                · simp only [parse_celery, e1, e2, e3, e4, e5, e6, e7, ed]
                    at h
                  exact Except.noConfusion h
                · simp only [parse_celery, e1, e2, e3, e4, e5, e6, e7, ed]
                    at h
                  injection h with h1
                  injection h1 with h2
                  subst h2
                  exact ⟨caps, ts, ed, Or.inr (Or.inr (Or.inr (Or.inr
                    (Or.inr (Or.inr ⟨rfl, rfl⟩)))))⟩
            · rcases ed : parse_date tz (capStr caps GName.timestamp)
                with e | ts
              · simp only [parse_celery, e1, e2, e3, e4, e5, e6, ed] at h
                exact Except.noConfusion h
              · simp only [parse_celery, e1, e2, e3, e4, e5, e6, ed] at h
                injection h with h1
                injection h1 with h2
                subst h2
                exact ⟨caps, ts, ed, Or.inr (Or.inr (Or.inr (Or.inr
                  (Or.inr (Or.inl ⟨rfl, rfl⟩)))))⟩
          · rcases ed : parse_date tz (capStr caps GName.timestamp)
              with e | ts
            · simp only [parse_celery, e1, e2, e3, e4, e5, ed] at h
              exact Except.noConfusion h
            · simp only [parse_celery, e1, e2, e3, e4, e5, ed] at h
              injection h with h1
              injection h1 with h2
              subst h2
              exact ⟨caps, ts, ed, Or.inr (Or.inr (Or.inr (Or.inr
                (Or.inl ⟨rfl, rfl⟩))))⟩
        · rcases ed : parse_date tz (capStr caps GName.timestamp) with e | ts
          · simp only [parse_celery, e1, e2, e3, e4, ed] at h
            exact Except.noConfusion h
          · simp only [parse_celery, e1, e2, e3, e4, ed] at h
            injection h with h1
            injection h1 with h2
            subst h2
            exact ⟨caps, ts, ed, Or.inr (Or.inr (Or.inr (Or.inl
              ⟨rfl, rfl⟩)))⟩
      · rcases ed : parse_date tz (capStr caps GName.timestamp) with e | ts
        · simp only [parse_celery, e1, e2, e3, ed] at h
          exact Except.noConfusion h
        · simp only [parse_celery, e1, e2, e3, ed] at h
          injection h with h1
          injection h1 with h2
          subst h2
          exact ⟨caps, ts, ed, Or.inr (Or.inr (Or.inl ⟨rfl, rfl⟩))⟩
    · rcases ed : parse_date tz (capStr caps GName.timestamp) with e | ts
      · simp only [parse_celery, e1, e2, ed] at h
        exact Except.noConfusion h
      · simp only [parse_celery, e1, e2, ed] at h
        injection h with h1
        injection h1 with h2
        subst h2
        exact ⟨caps, ts, ed, Or.inr (Or.inl ⟨rfl, rfl⟩)⟩
  · rcases ed : parse_date tz (capStr caps GName.timestamp) with e | ts
    · simp only [parse_celery, e1, ed] at h
      exact Except.noConfusion h
    · simp only [parse_celery, e1, ed] at h
      injection h with h1
      injection h1 with h2
      subst h2
      exact ⟨caps, ts, ed, Or.inl ⟨rfl, rfl⟩⟩

/-! ### Claims -/

/-- Claim C1: for every input line matching the success pattern with task
identifier `T` and timestamp text `S`, `parse_celery` returns the 4-tuple
whose metric name is `"celery.success." ++ T`, whose timestamp is the
epoch-seconds encoding of `S`, whose count is 1, and whose attributes
equal the fixed mapping. -/
theorem claim_c1 {α : Type} (tz : Int) (logging : α) (line : String)
    (caps : Caps) (T S ts : String)
    (hm : reMatch success_regex line = some caps)
    (hT : capStr caps GName.task = T)
    (hS : capStr caps GName.timestamp = S)
    (hts : parse_date tz S = Except.ok ts) :
    parse_celery tz logging line =
      Except.ok (some ("celery.success." ++ T, ts, 1, attr_dict)) := by
  simp [parse_celery, hm, hT, hS, hts]

theorem claim_c1_witness :
    parse_celery (-28800) ()
      "[2013-02-09 15:20:43,779: INFO/MainProcess] Task entity.tasks.add_love[c8411104-ee40-49e8-ab4d-af1be60f93aa] succeeded in 0.169150829315s: None" =
      Except.ok (some ("celery.success." ++ "entity.tasks.add_love",
        "1360452043", 1, attr_dict)) :=
  claim_c1 (-28800) () _
    [(GName.msg, "None".data), (GName.duration, "0.169150829315".data),
     (GName.task_id, "c8411104-ee40-49e8-ab4d-af1be60f93aa".data),
     (GName.task, "entity.tasks.add_love".data),
     (GName.timestamp, "2013-02-09 15:20:43,779".data)]
    "entity.tasks.add_love" "2013-02-09 15:20:43,779" "1360452043"
    (by rfl) (by rfl) (by rfl) (by rfl)

/-- Claim C2: a line with a leading bracketed timestamp matching none of
the six specific rules yields an event named exactly `"celery.error"`,
and the catch-all pattern matches any line with a leading timestamp (the
documented `[YYYY-MM-DD HH:MM:SS,fff: ...` shape, whose first
fractional-seconds digit feeds the pattern's `(\d+)`). -/
theorem claim_c2 :
    (∀ (α : Type) (tz : Int) (logging : α) (line : String) (caps : Caps)
      (ts : String),
      reMatch success_regex line = none →
      reMatch received_regex line = none →
      reMatch sending_regex line = none →
      reMatch writing_regex line = none →
      reMatch starting_regex line = none →
      reMatch schedule_changed_regex line = none →
      reMatch error_regex line = some caps →
      parse_date tz (capStr caps GName.timestamp) = Except.ok ts →
      parse_celery tz logging line =
        Except.ok (some ("celery.error", ts, 1, attr_dict))) ∧
    (∀ (line : String)
      (c1 c2 c3 c4 c5 c6 c7 c8 c9 c10 c11 c12 c13 c14 f : Char)
      (rest : List Char),
      line.data = '[' :: c1 :: c2 :: c3 :: c4 :: '-' :: c5 :: c6 :: '-' ::
        c7 :: c8 :: ' ' :: c9 :: c10 :: ':' :: c11 :: c12 :: ':' ::
        c13 :: c14 :: ',' :: f :: rest →
      c1.isDigit = true → c2.isDigit = true → c3.isDigit = true →
      c4.isDigit = true → c5.isDigit = true → c6.isDigit = true →
      c7.isDigit = true → c8.isDigit = true → c9.isDigit = true →
      c10.isDigit = true → c11.isDigit = true → c12.isDigit = true →
      c13.isDigit = true → c14.isDigit = true → f.isDigit = true →
      (reMatch error_regex line).isSome = true) := by
  constructor
  · intro α tz logging line caps ts m1 m2 m3 m4 m5 m6 m7 hts
    simp [parse_celery, m1, m2, m3, m4, m5, m6, m7, hts]
  · intro line c1 c2 c3 c4 c5 c6 c7 c8 c9 c10 c11 c12 c13 c14 f rest hline
      hd1 hd2 hd3 hd4 hd5 hd6 hd7 hd8 hd9 hd10 hd11 hd12 hd13 hd14 hdf
    exact error_regex_matches_stamp line c1 c2 c3 c4 c5 c6 c7 c8 c9 c10
      c11 c12 c13 c14 f rest hline hd1 hd2 hd3 hd4 hd5 hd6 hd7 hd8 hd9
      hd10 hd11 hd12 hd13 hd14 hdf

theorem claim_c2_witness :
    parse_celery (-28800) ()
      "[2013-02-06 14:02:02,435: WARNING/MainProcess] len() on an unsliced queryset is not allowed" =
      Except.ok (some ("celery.error", "1360188122", 1, attr_dict)) ∧
    (reMatch error_regex
      "[2013-02-06 14:02:02,435: WARNING/MainProcess] len() on an unsliced queryset is not allowed").isSome
      = true :=
  ⟨claim_c2.1 Unit (-28800) () _
      [(GName.timestamp, "2013-02-06 14:02:02,435".data)] "1360188122"
      (by rfl) (by rfl) (by rfl) (by rfl) (by rfl) (by rfl) (by rfl) (by rfl),
   claim_c2.2 _ '2' '0' '1' '3' '0' '2' '0' '6' '1' '4' '0' '2' '0' '2' '4'
      ("35: WARNING/MainProcess] len() on an unsliced queryset is not allowed".data)
      (by rfl) rfl rfl rfl rfl rfl rfl rfl rfl rfl rfl rfl rfl rfl rfl rfl⟩

/-- Claim C3: a line matching no rule at all yields an absent result and
raises no error; in particular any line without a leading `[` (the empty
string included) matches none of the seven rules. -/
theorem claim_c3 {α : Type} (tz : Int) (logging : α) (line : String) :
    ((reMatch success_regex line = none ∧ reMatch received_regex line = none ∧
      reMatch sending_regex line = none ∧ reMatch writing_regex line = none ∧
      reMatch starting_regex line = none ∧
      reMatch schedule_changed_regex line = none ∧
      reMatch error_regex line = none) →
      parse_celery tz logging line = Except.ok none) ∧
    (line.data.head? ≠ some '[' →
      reMatch success_regex line = none ∧ reMatch received_regex line = none ∧
      reMatch sending_regex line = none ∧ reMatch writing_regex line = none ∧
      reMatch starting_regex line = none ∧
      reMatch schedule_changed_regex line = none ∧
      reMatch error_regex line = none ∧
      parse_celery tz logging line = Except.ok none) := by
  constructor
  · rintro ⟨m1, m2, m3, m4, m5, m6, m7⟩
    simp [parse_celery, m1, m2, m3, m4, m5, m6, m7]
  · intro h
    have m1 : reMatch success_regex line = none :=
      seq_lit_bracket_none _ line.data [] _ h
    have m2 : reMatch received_regex line = none :=
      seq_lit_bracket_none _ line.data [] _ h
    have m3 : reMatch sending_regex line = none :=
      seq_lit_bracket_none _ line.data [] _ h
    have m4 : reMatch writing_regex line = none :=
      seq_lit_bracket_none _ line.data [] _ h
    have m5 : reMatch starting_regex line = none :=
      seq_lit_bracket_none _ line.data [] _ h
    have m6 : reMatch schedule_changed_regex line = none :=
      seq_lit_bracket_none _ line.data [] _ h
    have m7 : reMatch error_regex line = none :=
      seq_lit_bracket_none _ line.data [] _ h
    exact ⟨m1, m2, m3, m4, m5, m6, m7,
      by simp [parse_celery, m1, m2, m3, m4, m5, m6, m7]⟩

theorem claim_c3_witness :
    ("" : String).data.head? ≠ some '[' ∧
    parse_celery 0 () "" = Except.ok none :=
  ⟨by decide, ((claim_c3 0 () "").2 (by decide)).2.2.2.2.2.2.2⟩

/-- Claim C10 (implicit): every rule, the catch-all included, demands a
digit after the seconds field; a line opening with a well-formed
`[YYYY-MM-DD HH:MM:SS` whose remainder holds no further digit produces
no event. -/
theorem claim_c10 {α : Type} (tz : Int) (logging : α) (line : String)
    (c1 c2 c3 c4 c5 c6 c7 c8 c9 c10 c11 c12 c13 c14 : Char)
    (rest : List Char)
    (hline : line.data = '[' :: c1 :: c2 :: c3 :: c4 :: '-' :: c5 :: c6 ::
      '-' :: c7 :: c8 :: ' ' :: c9 :: c10 :: ':' :: c11 :: c12 :: ':' ::
      c13 :: c14 :: rest)
    (h1 : c1.isDigit = true) (h2 : c2.isDigit = true)
    (h3 : c3.isDigit = true) (h4 : c4.isDigit = true)
    (h5 : c5.isDigit = true) (h6 : c6.isDigit = true)
    (h7 : c7.isDigit = true) (h8 : c8.isDigit = true)
    (h9 : c9.isDigit = true) (h10 : c10.isDigit = true)
    (h11 : c11.isDigit = true) (h12 : c12.isDigit = true)
    (h13 : c13.isDigit = true) (h14 : c14.isDigit = true)
    (hnd : noDigit rest = true) :
    parse_celery tz logging line = Except.ok none := by
  have m1 : reMatch success_regex line = none := by
    simp only [reMatch, hline, success_regex]
    exact catR_bracket_ts_none _ c1 c2 c3 c4 c5 c6 c7 c8 c9 c10 c11 c12 c13
      c14 rest [] _ h1 h2 h3 h4 h5 h6 h7 h8 h9 h10 h11 h12 h13 h14 hnd
  have m2 : reMatch received_regex line = none := by
    simp only [reMatch, hline, received_regex]
    exact catR_bracket_ts_none _ c1 c2 c3 c4 c5 c6 c7 c8 c9 c10 c11 c12 c13
      c14 rest [] _ h1 h2 h3 h4 h5 h6 h7 h8 h9 h10 h11 h12 h13 h14 hnd
  have m3 : reMatch sending_regex line = none := by
    simp only [reMatch, hline, sending_regex]
    exact catR_bracket_ts_none _ c1 c2 c3 c4 c5 c6 c7 c8 c9 c10 c11 c12 c13
      c14 rest [] _ h1 h2 h3 h4 h5 h6 h7 h8 h9 h10 h11 h12 h13 h14 hnd
  have m4 : reMatch writing_regex line = none := by
    simp only [reMatch, hline, writing_regex]
    exact catR_bracket_ts_none _ c1 c2 c3 c4 c5 c6 c7 c8 c9 c10 c11 c12 c13
      c14 rest [] _ h1 h2 h3 h4 h5 h6 h7 h8 h9 h10 h11 h12 h13 h14 hnd
  have m5 : reMatch starting_regex line = none := by
    simp only [reMatch, hline, starting_regex]
    exact catR_bracket_ts_none _ c1 c2 c3 c4 c5 c6 c7 c8 c9 c10 c11 c12 c13
      c14 rest [] _ h1 h2 h3 h4 h5 h6 h7 h8 h9 h10 h11 h12 h13 h14 hnd
  have m6 : reMatch schedule_changed_regex line = none := by
    simp only [reMatch, hline, schedule_changed_regex]
    exact catR_bracket_ts_none _ c1 c2 c3 c4 c5 c6 c7 c8 c9 c10 c11 c12 c13
      c14 rest [] _ h1 h2 h3 h4 h5 h6 h7 h8 h9 h10 h11 h12 h13 h14 hnd
  have m7 : reMatch error_regex line = none := by
    simp only [reMatch, hline, error_regex]
    exact catR_bracket_ts_none _ c1 c2 c3 c4 c5 c6 c7 c8 c9 c10 c11 c12 c13
      c14 rest [] _ h1 h2 h3 h4 h5 h6 h7 h8 h9 h10 h11 h12 h13 h14 hnd
  simp [parse_celery, m1, m2, m3, m4, m5, m6, m7]

theorem claim_c10_witness :
    parse_celery 0 () "[2013-02-09 15:20:43] no more digits here" =
      Except.ok none :=
  claim_c10 0 () _ '2' '0' '1' '3' '0' '2' '0' '9' '1' '5' '2' '0' '4' '3'
    ("] no more digits here".data) (by rfl)
    rfl rfl rfl rfl rfl rfl rfl rfl rfl rfl rfl rfl rfl rfl (by rfl)

/-- Claim C5: `parse_celery` is deterministic in the line: repeating a
classification gives an identical result, and the result is identical
for any two values (even of different types) of the unused `logging`
argument. -/
theorem claim_c5 {α β : Type} (tz : Int) (lg1 : α) (lg2 : β)
    (line : String) :
    parse_celery tz lg1 line = parse_celery tz lg1 line ∧
    parse_celery tz lg1 line = parse_celery tz lg2 line :=
  ⟨rfl, rfl⟩

/-- Claim C4: first-match-wins precedence over the fixed rule order: if
the `i`-th specific rule matches and no earlier one does, the event is
the `i`-th rule's, and its metric name is never the generic
`"celery.error"`. -/
theorem claim_c4 {α : Type} (tz : Int) (logging : α) (line : String)
    (i : Nat) (hi : i < specRules.length) (caps : Caps) (ts : String)
    (hm : reMatch (specRules.get ⟨i, hi⟩) line = some caps)
    (hprev : ∀ j (hj : j < i),
      reMatch (specRules.get ⟨j, Nat.lt_trans hj hi⟩) line = none)
    (hts : parse_date tz (capStr caps GName.timestamp) = Except.ok ts) :
    parse_celery tz logging line =
      Except.ok (some (specMetricName i caps, ts, 1, attr_dict)) ∧
    specMetricName i caps ≠ "celery.error" := by
  have hi6 : i < 6 := by simpa [specRules] using hi
  rcases i with _ | _ | _ | _ | _ | _ | i
  · have hm0 : reMatch success_regex line = some caps := hm
    have hname : specMetricName 0 caps =
        "celery.success." ++ capStr caps GName.task := rfl
    rw [hname]
    exact ⟨by simp [parse_celery, hm0, hts],
      append_ne_error _ _ (by decide)⟩
  · have hm0 : reMatch received_regex line = some caps := hm
    have p0 : reMatch success_regex line = none := hprev 0 (by omega)
    have hname : specMetricName 1 caps =
        "celery.received." ++ capStr caps GName.task := rfl
    rw [hname]
    exact ⟨by simp [parse_celery, p0, hm0, hts],
      append_ne_error _ _ (by decide)⟩
  · have hm0 : reMatch sending_regex line = some caps := hm
    have p0 : reMatch success_regex line = none := hprev 0 (by omega)
    have p1 : reMatch received_regex line = none := hprev 1 (by omega)
    have hname : specMetricName 2 caps =
        "celery.sending." ++ capStr caps GName.task := rfl
    rw [hname]
    exact ⟨by simp [parse_celery, p0, p1, hm0, hts],
      append_ne_error _ _ (by decide)⟩
  · have hm0 : reMatch writing_regex line = some caps := hm
    have p0 : reMatch success_regex line = none := hprev 0 (by omega)
    have p1 : reMatch received_regex line = none := hprev 1 (by omega)
    have p2 : reMatch sending_regex line = none := hprev 2 (by omega)
    have hname : specMetricName 3 caps = "celery.writing" := rfl
    rw [hname]
    exact ⟨by simp [parse_celery, p0, p1, p2, hm0, hts], by decide⟩
  · have hm0 : reMatch starting_regex line = some caps := hm
    have p0 : reMatch success_regex line = none := hprev 0 (by omega)
    have p1 : reMatch received_regex line = none := hprev 1 (by omega)
    have p2 : reMatch sending_regex line = none := hprev 2 (by omega)
    have p3 : reMatch writing_regex line = none := hprev 3 (by omega)
    have hname : specMetricName 4 caps = "celery.starting" := rfl
    rw [hname]
    exact ⟨by simp [parse_celery, p0, p1, p2, p3, hm0, hts], by decide⟩
  · have hm0 : reMatch schedule_changed_regex line = some caps := hm
    have p0 : reMatch success_regex line = none := hprev 0 (by omega)
    have p1 : reMatch received_regex line = none := hprev 1 (by omega)
    have p2 : reMatch sending_regex line = none := hprev 2 (by omega)
    have p3 : reMatch writing_regex line = none := hprev 3 (by omega)
    have p4 : reMatch starting_regex line = none := hprev 4 (by omega)
    have hname : specMetricName 5 caps = "celery.schedule_changed" := rfl
    rw [hname]
    exact ⟨by simp [parse_celery, p0, p1, p2, p3, p4, hm0, hts], by decide⟩
  · omega

theorem claim_c4_witness :
    parse_celery (-25200) ()
      "[2015-07-20 18:25:59,371: INFO/MainProcess] Received task: appratings.tasks.add[6cd42812-7a9e-49d5-9bbd-1174233441cb]" =
      Except.ok (some ("celery.received." ++ "appratings.tasks.add",
        "1437441959", 1, attr_dict)) ∧
    ("celery.received." ++ "appratings.tasks.add" : String) ≠
      "celery.error" :=
  claim_c4 (-25200) () _ 1 (by decide)
    [(GName.task_id, "6cd42812-7a9e-49d5-9bbd-1174233441cb".data),
     (GName.task, "appratings.tasks.add".data),
     (GName.timestamp, "2015-07-20 18:25:59,371".data)]
    "1437441959" (by rfl)
    (fun j hj => by
      have hj0 : j = 0 := by omega
      subst hj0
      rfl)
    (by rfl)

/-- Claim C6: on every line that produces an event, the count field is
the integer 1 and the attributes field is exactly the fixed two-key
mapping, in all seven rule branches alike. -/
theorem claim_c6 {α : Type} (tz : Int) (logging : α) (line : String)
    (ev : Event) (h : parse_celery tz logging line = Except.ok (some ev)) :
    ev.2.2.1 = 1 ∧ ev.2.2.2 = attr_dict := by
  obtain ⟨caps, ts, hts, hc⟩ := parse_celery_inv tz logging line ev h
  rcases hc with ⟨-, rfl⟩ | ⟨-, rfl⟩ | ⟨-, rfl⟩ | ⟨-, rfl⟩ | ⟨-, rfl⟩ |
    ⟨-, rfl⟩ | ⟨-, rfl⟩ <;> exact ⟨rfl, rfl⟩

theorem claim_c6_witness :
    (("celery.writing", "1437606850", 1, attr_dict) : Event).2.2.1 = 1 ∧
    (("celery.writing", "1437606850", 1, attr_dict) : Event).2.2.2 =
      attr_dict :=
  claim_c6 (-25200) ()
    "[2015-07-22 16:14:10,206: INFO/MainProcess] Writing entries..."
    (("celery.writing", "1437606850", 1, attr_dict) : Event) (by rfl)

/-- Claim C7: the metric name of every produced event is `"celery."` plus
the event kind, with `"."` plus the captured dotted task name appended by
the success, received and sending rules, and bare for the writing,
starting, schedule_changed and error rules. -/
theorem claim_c7 {α : Type} (tz : Int) (logging : α) (line : String)
    (ev : Event) (h : parse_celery tz logging line = Except.ok (some ev)) :
    (∃ caps, reMatch success_regex line = some caps ∧
      ev.1 = "celery.success." ++ capStr caps GName.task) ∨
    (∃ caps, reMatch received_regex line = some caps ∧
      ev.1 = "celery.received." ++ capStr caps GName.task) ∨
    (∃ caps, reMatch sending_regex line = some caps ∧
      ev.1 = "celery.sending." ++ capStr caps GName.task) ∨
    (∃ caps, reMatch writing_regex line = some caps ∧
      ev.1 = "celery.writing") ∨
    (∃ caps, reMatch starting_regex line = some caps ∧
      ev.1 = "celery.starting") ∨
    (∃ caps, reMatch schedule_changed_regex line = some caps ∧
      ev.1 = "celery.schedule_changed") ∨
    (∃ caps, reMatch error_regex line = some caps ∧
      ev.1 = "celery.error") := by
  obtain ⟨caps, ts, hts, hc⟩ := parse_celery_inv tz logging line ev h
  rcases hc with ⟨hm, rfl⟩ | ⟨hm, rfl⟩ | ⟨hm, rfl⟩ | ⟨hm, rfl⟩ | ⟨hm, rfl⟩ |
    ⟨hm, rfl⟩ | ⟨hm, rfl⟩
  · exact Or.inl ⟨caps, hm, rfl⟩
  · exact Or.inr (Or.inl ⟨caps, hm, rfl⟩)
  · exact Or.inr (Or.inr (Or.inl ⟨caps, hm, rfl⟩))
  · exact Or.inr (Or.inr (Or.inr (Or.inl ⟨caps, hm, rfl⟩)))
  · exact Or.inr (Or.inr (Or.inr (Or.inr (Or.inl ⟨caps, hm, rfl⟩))))
  · exact Or.inr (Or.inr (Or.inr (Or.inr (Or.inr (Or.inl ⟨caps, hm, rfl⟩)))))
  · exact Or.inr (Or.inr (Or.inr (Or.inr (Or.inr (Or.inr ⟨caps, hm, rfl⟩)))))

theorem claim_c7_witness :
    (∃ caps, reMatch success_regex
        "[2015-07-28 03:30:17,183: INFO/MainProcess] beat: Starting..." =
        some caps ∧
      (("celery.starting", "1438079417", 1, attr_dict) : Event).1 =
        "celery.success." ++ capStr caps GName.task) ∨
    (∃ caps, reMatch received_regex
        "[2015-07-28 03:30:17,183: INFO/MainProcess] beat: Starting..." =
        some caps ∧
      (("celery.starting", "1438079417", 1, attr_dict) : Event).1 =
        "celery.received." ++ capStr caps GName.task) ∨
    (∃ caps, reMatch sending_regex
        "[2015-07-28 03:30:17,183: INFO/MainProcess] beat: Starting..." =
        some caps ∧
      (("celery.starting", "1438079417", 1, attr_dict) : Event).1 =
        "celery.sending." ++ capStr caps GName.task) ∨
    (∃ caps, reMatch writing_regex
        "[2015-07-28 03:30:17,183: INFO/MainProcess] beat: Starting..." =
        some caps ∧
      (("celery.starting", "1438079417", 1, attr_dict) : Event).1 =
        "celery.writing") ∨
    (∃ caps, reMatch starting_regex
        "[2015-07-28 03:30:17,183: INFO/MainProcess] beat: Starting..." =
        some caps ∧
      (("celery.starting", "1438079417", 1, attr_dict) : Event).1 =
        "celery.starting") ∨
    (∃ caps, reMatch schedule_changed_regex
        "[2015-07-28 03:30:17,183: INFO/MainProcess] beat: Starting..." =
        some caps ∧
      (("celery.starting", "1438079417", 1, attr_dict) : Event).1 =
        "celery.schedule_changed") ∨
    (∃ caps, reMatch error_regex
        "[2015-07-28 03:30:17,183: INFO/MainProcess] beat: Starting..." =
        some caps ∧
      (("celery.starting", "1438079417", 1, attr_dict) : Event).1 =
        "celery.error") :=
  claim_c7 (-25200) ()
    "[2015-07-28 03:30:17,183: INFO/MainProcess] beat: Starting..."
    (("celery.starting", "1438079417", 1, attr_dict) : Event) (by rfl)

/-- Claim C8: the timestamp field of every produced event is the captured
date-time text put through the local-time epoch-seconds conversion
(`parse_date`, the spec-modelled `common.parse_date`), and on the
concrete success scenario line the timestamp string is `"1360452043"`
(Pacific standard time, the zone the repository's tests assume). -/
theorem claim_c8 :
    (∀ (α : Type) (tz : Int) (logging : α) (line : String) (ev : Event),
      parse_celery tz logging line = Except.ok (some ev) →
      ∃ caps,
        (reMatch success_regex line = some caps ∨
         reMatch received_regex line = some caps ∨
         reMatch sending_regex line = some caps ∨
         reMatch writing_regex line = some caps ∨
         reMatch starting_regex line = some caps ∨
         reMatch schedule_changed_regex line = some caps ∨
         reMatch error_regex line = some caps) ∧
        parse_date tz (capStr caps GName.timestamp) = Except.ok ev.2.1) ∧
    parse_celery (-28800) ()
      "[2013-02-09 15:20:43,779: INFO/MainProcess] Task entity.tasks.add_love[c8411104-ee40-49e8-ab4d-af1be60f93aa] succeeded in 0.169150829315s: None" =
      Except.ok (some ("celery.success.entity.tasks.add_love", "1360452043",
        1, attr_dict)) := by
  constructor
  · intro α tz logging line ev h
    obtain ⟨caps, ts, hts, hc⟩ := parse_celery_inv tz logging line ev h
    rcases hc with ⟨hm, rfl⟩ | ⟨hm, rfl⟩ | ⟨hm, rfl⟩ | ⟨hm, rfl⟩ |
      ⟨hm, rfl⟩ | ⟨hm, rfl⟩ | ⟨hm, rfl⟩
    · exact ⟨caps, Or.inl hm, hts⟩
    · exact ⟨caps, Or.inr (Or.inl hm), hts⟩
    · exact ⟨caps, Or.inr (Or.inr (Or.inl hm)), hts⟩
    · exact ⟨caps, Or.inr (Or.inr (Or.inr (Or.inl hm))), hts⟩
    · exact ⟨caps, Or.inr (Or.inr (Or.inr (Or.inr (Or.inl hm)))), hts⟩
    · exact ⟨caps,
        Or.inr (Or.inr (Or.inr (Or.inr (Or.inr (Or.inl hm))))), hts⟩
    · exact ⟨caps,
        Or.inr (Or.inr (Or.inr (Or.inr (Or.inr (Or.inr hm))))), hts⟩
  · rfl

theorem claim_c8_witness :
    ∃ caps,
      (reMatch success_regex
        "[2013-02-09 15:20:43,779: INFO/MainProcess] Task entity.tasks.add_love[c8411104-ee40-49e8-ab4d-af1be60f93aa] succeeded in 0.169150829315s: None" =
        some caps ∨
       reMatch received_regex
        "[2013-02-09 15:20:43,779: INFO/MainProcess] Task entity.tasks.add_love[c8411104-ee40-49e8-ab4d-af1be60f93aa] succeeded in 0.169150829315s: None" =
        some caps ∨
       reMatch sending_regex
        "[2013-02-09 15:20:43,779: INFO/MainProcess] Task entity.tasks.add_love[c8411104-ee40-49e8-ab4d-af1be60f93aa] succeeded in 0.169150829315s: None" =
        some caps ∨
       reMatch writing_regex
        "[2013-02-09 15:20:43,779: INFO/MainProcess] Task entity.tasks.add_love[c8411104-ee40-49e8-ab4d-af1be60f93aa] succeeded in 0.169150829315s: None" =
        some caps ∨
       reMatch starting_regex
        "[2013-02-09 15:20:43,779: INFO/MainProcess] Task entity.tasks.add_love[c8411104-ee40-49e8-ab4d-af1be60f93aa] succeeded in 0.169150829315s: None" =
        some caps ∨
       reMatch schedule_changed_regex
        "[2013-02-09 15:20:43,779: INFO/MainProcess] Task entity.tasks.add_love[c8411104-ee40-49e8-ab4d-af1be60f93aa] succeeded in 0.169150829315s: None" =
        some caps ∨
       reMatch error_regex
        "[2013-02-09 15:20:43,779: INFO/MainProcess] Task entity.tasks.add_love[c8411104-ee40-49e8-ab4d-af1be60f93aa] succeeded in 0.169150829315s: None" =
        some caps) ∧
      parse_date (-28800) (capStr caps GName.timestamp) =
        Except.ok "1360452043" :=
  claim_c8.1 Unit (-28800) ()
    "[2013-02-09 15:20:43,779: INFO/MainProcess] Task entity.tasks.add_love[c8411104-ee40-49e8-ab4d-af1be60f93aa] succeeded in 0.169150829315s: None"
    (("celery.success.entity.tasks.add_love", "1360452043", 1,
      attr_dict) : Event)
    (by rfl)

/-- Claim C9: when the first matching rule's captured timestamp text
cannot be parsed, `parse_celery` surfaces the failure to the caller
instead of swallowing it or returning a defaulted event. -/
theorem claim_c9 {α : Type} (tz : Int) (logging : α) (line : String)
    (caps : Caps) (e : String)
    (hfirst :
      reMatch success_regex line = some caps ∨
      (reMatch success_regex line = none ∧
        reMatch received_regex line = some caps) ∨
      (reMatch success_regex line = none ∧
        reMatch received_regex line = none ∧
        reMatch sending_regex line = some caps) ∨
      (reMatch success_regex line = none ∧
        reMatch received_regex line = none ∧
        reMatch sending_regex line = none ∧
        reMatch writing_regex line = some caps) ∨
      (reMatch success_regex line = none ∧
        reMatch received_regex line = none ∧
        reMatch sending_regex line = none ∧
        reMatch writing_regex line = none ∧
        reMatch starting_regex line = some caps) ∨
      (reMatch success_regex line = none ∧
        reMatch received_regex line = none ∧
        reMatch sending_regex line = none ∧
        reMatch writing_regex line = none ∧
        reMatch starting_regex line = none ∧
        reMatch schedule_changed_regex line = some caps) ∨
      (reMatch success_regex line = none ∧
        reMatch received_regex line = none ∧
        reMatch sending_regex line = none ∧
        reMatch writing_regex line = none ∧
        reMatch starting_regex line = none ∧
        reMatch schedule_changed_regex line = none ∧
        reMatch error_regex line = some caps))
    (herr : parse_date tz (capStr caps GName.timestamp) = Except.error e) :
    parse_celery tz logging line = Except.error e := by
  rcases hfirst with hm | ⟨n1, hm⟩ | ⟨n1, n2, hm⟩ | ⟨n1, n2, n3, hm⟩ |
    ⟨n1, n2, n3, n4, hm⟩ | ⟨n1, n2, n3, n4, n5, hm⟩ |
    ⟨n1, n2, n3, n4, n5, n6, hm⟩
  · simp [parse_celery, hm, herr]
  · simp [parse_celery, n1, hm, herr]
  · simp [parse_celery, n1, n2, hm, herr]
  · simp [parse_celery, n1, n2, n3, hm, herr]
  · simp [parse_celery, n1, n2, n3, n4, hm, herr]
  · simp [parse_celery, n1, n2, n3, n4, n5, hm, herr]
  · simp [parse_celery, n1, n2, n3, n4, n5, n6, hm, herr]

theorem claim_c9_witness :
    parse_celery 0 () "[9999-99-99 99:99:99,1: X] whatever" =
      Except.error "9999-99-99 99:99:99,1" :=
  claim_c9 0 () _ [(GName.timestamp, "9999-99-99 99:99:99,1".data)]
    "9999-99-99 99:99:99,1"
    (Or.inr (Or.inr (Or.inr (Or.inr (Or.inr (Or.inr
      ⟨rfl, rfl, rfl, rfl, rfl, rfl, rfl⟩))))))
    (by rfl)

end CeleryLog
